import Mathlib

/-!
Verification of the icq-parser binary-artifact decoder (`icq_parser.py`)
against its natural-language specification.

The Python source is shallowly embedded: bytes are `Nat` values (< 256 where
it matters), byte buffers are `List Nat`, Python `str` is `String` /
`List Char`, machine integers are `Nat` with explicit widths, dictionaries
are ordered association lists with insert-or-update semantics, and Python
exceptions are an explicit error type threaded through the decoders.
Loops are embedded with an explicit fuel argument that is always
instantiated large enough (each loop iteration consumes a positive number
of input bytes, so `length of input` bounds the iteration count); fuel
adequacy lemmas are proved where general theorems need them.
-/

namespace IcqParser

/-! ## Base62 (class `Base62`, icq_parser.py lines 56-75) -/

/-- The 62-character alphabet `0-9 a-z A-Z` (`Base62.CHARSET`). -/
def base62Charset : List Char :=
  "0123456789abcdefghijklmnopqrstuvwxyzABCDEFGHIJKLMNOPQRSTUVWXYZ".data

/-- Little-endian digit extraction loop of `Base62.encode`: repeated
`divmod(num, 62)`, fuel-bounded (the loop runs at most `num` times since
`num` strictly decreases). Digits are produced least-significant first;
`encode` reverses them. -/
def base62EncodeAux : Nat → Nat → List Char
  | 0, _ => []
  | fuel + 1, num =>
    if num = 0 then []
    else base62Charset.getD (num % 62) '0' :: base62EncodeAux fuel (num / 62)

/-- `Base62.encode`: `0` encodes to `"0"`, otherwise the reversed digit
list from the divmod loop. -/
def base62Encode (num : Nat) : String :=
  if num = 0 then "0" else String.mk (base62EncodeAux num num).reverse

/-- `Base62.decode`: Horner evaluation `num = num * 62 + CHARSET.index(ch)`
over the characters of the string. -/
def base62Decode (s : String) : Nat :=
  s.data.foldl (fun num ch => num * 62 + base62Charset.indexOf ch) 0

/-! ## `check_partial_match` (icq_parser.py lines 1519-1530) -/

/-- The comparison loop of `check_partial_match`: walks index `i` over
`range(min(len(value), len(filename)))`, counting matching characters and
stopping at the first mismatch (`break`). Embedded structurally on the two
character lists, which walk in lockstep exactly as the indexed loop does. -/
def matchLength : List Char → List Char → Nat
  | v :: vs, f :: fs => if v = f then matchLength vs fs + 1 else 0
  | _, _ => 0

/-- `check_partial_match(value, filename)` at the default threshold `0.5`:
the match length must reach `int(len(filename) * 0.5)`.  `len * 0.5` is
exact in binary floating point, so the bound is `len filename / 2`
(floor division). -/
def check_partial_match (value filename : String) : Bool :=
  matchLength value.data filename.data ≥ filename.length / 2

/-- Specification-side definition: the longest common prefix of two
character lists, written independently of the source loop. -/
def longestCommonPrefixLen (a b : List Char) : Nat :=
  ((a.zip b).takeWhile (fun p => p.1 = p.2)).length

/-! ## `FileSharingUriParser.extract_content_type` (lines 126-172) -/

/-- The `VIDEO` lookup table of `extract_content_type`. -/
def videoTable (c : Char) : String :=
  if c = '8' then "REGULAR" else if c = '9' then "SNAP"
  else if c = 'A' then "PTS" else if c = 'B' then "PTS_B"
  else if c = 'C' then "UNKNOWN" else if c = 'D' then "STICKER"
  else if c = 'E' then "UNKNOWN" else if c = 'F' then "UNKNOWN"
  else "UNKNOWN"

/-- The `AUDIO` lookup table of `extract_content_type`. -/
def audioTable (c : Char) : String :=
  if c = 'G' then "REGULAR" else if c = 'H' then "SNAP"
  else if c = 'I' then "PTT" else if c = 'J' then "PTT"
  else if c = 'K' then "UNKNOWN" else if c = 'M' then "UNKNOWN"
  else if c = 'N' then "UNKNOWN" else "UNKNOWN"

/-- The `IMAGE` lookup table of `extract_content_type`. -/
def imageTable (c : Char) : String :=
  if c = '0' then "REGULAR" else if c = '1' then "SNAP"
  else if c = '2' then "STICKER" else if c = '3' then "UNKNOWN"
  else if c = '4' then "GIF-ANIMATED" else if c = '5' then "GIF-ANIMATED-STICKER"
  else if c = '6' then "UNKNOWN" else if c = '7' then "UNKNOWN"
  else "UNKNOWN"

/-- ASCII lowercasing, the effect of Python `str.lower()` on the
uppercase-ASCII table values above. -/
def asciiLower (s : String) : String :=
  String.mk (s.data.map fun c =>
    if 'A' ≤ c ∧ c ≤ 'Z' then Char.ofNat (c.toNat + 32) else c)

/-- Python `c in s` for a character and a string. -/
def pyCharIn (c : Char) (s : String) : Bool :=
  s.data.contains c

/-- `extract_content_type` dispatch: membership of the type-class
character in the literal strings `"GHIJKMN"`, `"01234567"`, `"89ABCEF"`
(note: `'D'` is absent from the video dispatch string), then `'L'`,
then `'S'`, else `"unknown"`. -/
def extract_content_type (c : Char) : String :=
  if pyCharIn c "GHIJKMN" then "audio-" ++ asciiLower (audioTable c)
  else if pyCharIn c "01234567" then "image-" ++ asciiLower (imageTable c)
  else if pyCharIn c "89ABCEF" then "video-" ++ asciiLower (videoTable c)
  else if c = 'L' then "lottie-sticker"
  else if c = 'S' then "pdf"
  else "unknown"

/-! ## `sanitize` (icq_parser.py lines 1551-1555)

Python `str.replace(old, new)` scans left to right and replaces
non-overlapping occurrences.  Embedded on character lists with a fuel
argument (`fuel = length of the string` suffices: every step consumes at
least one character when the pattern is non-empty). -/

def pyReplace (p r : List Char) : Nat → List Char → List Char
  | 0, s => s
  | _ + 1, [] => []
  | fuel + 1, c :: cs =>
    if p.isPrefixOf (c :: cs) then r ++ pyReplace p r fuel ((c :: cs).drop p.length)
    else c :: pyReplace p r fuel cs

/-- Python `s.replace(p, r)` on strings. -/
def pyReplaceStr (p r s : String) : String :=
  String.mk (pyReplace p.data r.data s.data.length s.data)

/-- `sanitize(data)`: when the string is truthy (non-empty), replace every
`"http"` by `"hxxp"` and then every `"ftp://"` by `"fxx://"`. -/
def sanitize (data : String) : String :=
  if data = "" then data
  else pyReplaceStr "ftp://" "fxx://" (pyReplaceStr "http" "hxxp" data)

/-! ## Byte-level primitives

Byte buffers are `List Nat`; multi-byte integers are little-endian unless
noted.  `struct.unpack_from` raises `struct.error` when the buffer is
shorter than the format, and Python slices clamp at the buffer end. -/

/-- Python exceptions that escape the decoder's helpers. -/
inductive Err
  | keyError
  | structError
  | unicodeError
  | typeError
  | indexError
  deriving DecidableEq, Repr

/-- Little-endian interpretation of a byte list. -/
def leNum (bs : List Nat) : Nat :=
  bs.foldr (fun b acc => b + 256 * acc) 0

/-- First four bytes of a buffer as an unsigned little-endian 32-bit
value (one `I` of `struct.unpack_from("<II", ...)`). -/
def le32 (bs : List Nat) : Nat :=
  leNum (bs.take 4)

/-- The `w`-byte little-endian encoding of `v` (`v < 256 ^ w`). -/
def leBytes : Nat → Nat → List Nat
  | 0, _ => []
  | w + 1, v => v % 256 :: leBytes w (v / 256)

/-- `STRUCT_DICT` lookup plus unpack: formats `<B`, `<H`, `<I`, `<II`,
`<III`, `<IIII` for lengths 1/2/4/8/12/16; any other length raises
`KeyError`.  Callers take element `[0]` of the unpacked tuple, i.e. the
little-endian value of the first `min length 4` bytes.  A slice shorter
than the format raises `struct.error`. -/
def structFirst (len : Nat) (slice : List Nat) : Except Err Nat :=
  if len = 1 ∨ len = 2 ∨ len = 4 ∨ len = 8 ∨ len = 12 ∨ len = 16 then
    if slice.length < len then .error .structError
    else .ok (leNum (slice.take (min len 4)))
  else .error .keyError

/-- Big-endian 16-bit unpack (`">H"`, used for tag 69 `IS_OFFICIAL`). -/
def be16 (slice : List Nat) : Except Err Nat :=
  match slice with
  | b0 :: b1 :: _ => .ok (b0 * 256 + b1)
  | _ => .error .structError

/-- Strict UTF-8 decoding, as Python `bytes.decode("utf-8")`: rejects
continuation-byte starts, overlong forms, surrogates and values above
`U+10FFFF`. -/
def utf8Decode : List Nat → Option (List Char)
  | [] => some []
  | b :: bs =>
    if b ≤ 0x7F then
      (utf8Decode bs).map (fun cs => Char.ofNat b :: cs)
    else if b < 0xC2 then none
    else if b ≤ 0xDF then
      match bs with
      | c1 :: bs' =>
        if 0x80 ≤ c1 ∧ c1 ≤ 0xBF then
          (utf8Decode bs').map (fun cs => Char.ofNat ((b - 0xC0) * 64 + (c1 - 0x80)) :: cs)
        else none
      | _ => none
    else if b ≤ 0xEF then
      match bs with
      | c1 :: c2 :: bs' =>
        if (if b = 0xE0 then 0xA0 else 0x80) ≤ c1 ∧
            c1 ≤ (if b = 0xED then 0x9F else 0xBF) ∧
            0x80 ≤ c2 ∧ c2 ≤ 0xBF then
          (utf8Decode bs').map (fun cs =>
            Char.ofNat ((b - 0xE0) * 4096 + (c1 - 0x80) * 64 + (c2 - 0x80)) :: cs)
        else none
      | _ => none
    else if b ≤ 0xF4 then
      match bs with
      | c1 :: c2 :: c3 :: bs' =>
        if (if b = 0xF0 then 0x90 else 0x80) ≤ c1 ∧
            c1 ≤ (if b = 0xF4 then 0x8F else 0xBF) ∧
            0x80 ≤ c2 ∧ c2 ≤ 0xBF ∧ 0x80 ≤ c3 ∧ c3 ≤ 0xBF then
          (utf8Decode bs').map (fun cs =>
            Char.ofNat ((b - 0xF0) * 262144 + (c1 - 0x80) * 4096 +
              (c2 - 0x80) * 64 + (c3 - 0x80)) :: cs)
        else none
      | _ => none
    else none

/-- Python substring containment `pat in s` on character lists. -/
def containsSub (pat : List Char) : List Char → Bool
  | [] => pat.isEmpty
  | c :: cs => pat.isPrefixOf (c :: cs) || containsSub pat cs

/-- Decimal rendering padded to two digits, as `strftime` does for month,
day, hour, minute, second. -/
def pad2 (n : Nat) : String :=
  if n < 10 then "0" ++ Nat.repr n else Nat.repr n

/-- `datetime.fromtimestamp(ts, timezone.utc).strftime("%Y-%m-%d %H:%M:%S")`
for non-negative epoch seconds: proleptic Gregorian civil-from-days
conversion. -/
def formatTs (t : Nat) : String :=
  let days := t / 86400
  let secs := t % 86400
  let z := days + 719468
  let era := z / 146097
  let doe := z % 146097
  let yoe := (doe - doe / 1460 + doe / 36524 - doe / 146096) / 365
  let doy := doe - (365 * yoe + yoe / 4 - yoe / 100)
  let mp := (5 * doy + 2) / 153
  let d := doy - (153 * mp + 2) / 5 + 1
  let m := if mp < 10 then mp + 3 else mp - 9
  let y := yoe + era * 400 + (if m ≤ 2 then 1 else 0)
  Nat.repr y ++ "-" ++ pad2 m ++ "-" ++ pad2 d ++ " " ++
    pad2 (secs / 3600) ++ ":" ++ pad2 (secs % 3600 / 60) ++ ":" ++ pad2 (secs % 60)

/-! ## Data model of the desktop decoder (`DesktopParser`, lines 231-602)

Python values stored in the record dictionaries are heterogeneous; they
are modelled as a tagged union.  Python `dict`s preserve insertion order
and update in place, modelled as ordered association lists. -/

/-- A Python value as stored in a decoded record. -/
inductive Value
  | vNone
  | vNat (n : Nat)
  | vStr (s : String)
  | vBool (b : Bool)
  | vFlags (fs : List (String × Bool))
  | vMembers (ms : List (Nat × String))
  deriving DecidableEq, Repr

/-- A string-keyed Python dict of decoded values. -/
abbrev Dict := List (String × Value)

def dictGet (d : Dict) (k : String) : Option Value :=
  match d with
  | [] => none
  | (k', v) :: rest => if k' = k then some v else dictGet rest k

/-- Python dict assignment: update in place if the key exists, else append. -/
def dictSet (d : Dict) (k : String) (v : Value) : Dict :=
  match d with
  | [] => [(k, v)]
  | (k', v') :: rest => if k' = k then (k, v) :: rest else (k', v') :: dictSet rest k v

/-- One parked message record: `{"MESSAGE": {...}, "UID": uid}` plus an
optional `"VOIP"` sub-dict added on first VOIP-routed field. -/
structure MsgRec where
  message : Dict
  voip : Option Dict
  uid : String
  deriving DecidableEq, Repr

/-- The per-user park map `PARK[uid]`, keyed by message id (which can be
Python `None` after the `UINT64_MAX` sentinel). -/
abbrev Park := List (Option Nat × MsgRec)

def parkGet (p : Park) (k : Option Nat) : Option MsgRec :=
  match p with
  | [] => none
  | (k', r) :: rest => if k' = k then some r else parkGet rest k

def parkSet (p : Park) (k : Option Nat) (r : MsgRec) : Park :=
  match p with
  | [] => [(k, r)]
  | (k', r') :: rest => if k' = k then (k, r) :: rest else (k', r') :: parkSet rest k r

/-- The mutable parser fields touched by the message-history decoder:
`PARK[uid]`, `MESSAGE_ID` (initially the int `0`), the tag-5 scratch cell
`msg`, `RAW_TIME`, whether `MESSAGES[uid] = PARK[uid]` has run yet, and
the dialog-state fields reachable through `read_heads` (`CHAT_UID` stays
`None` during message-history decoding). -/
structure DbState where
  park : Park
  msgId : Option Nat
  msg : Option String
  rawTime : Nat
  committed : Bool
  dialogStates : List (Option String × Dict)
  chatUid : Option String
  deriving DecidableEq, Repr

/-- Fresh parser state for one user id (`__init__` plus the
`MESSAGES[uid] = {}` / `PARK[uid] = {}` initialisation). -/
def initState : DbState :=
  { park := [], msgId := some 0, msg := none, rawTime := 0,
    committed := false, dialogStates := [], chatUid := none }

def dlgGet (d : List (Option String × Dict)) (k : Option String) : Option Dict :=
  match d with
  | [] => none
  | (k', v) :: rest => if k' = k then some v else dlgGet rest k

def dlgSet (d : List (Option String × Dict)) (k : Option String) (v : Dict) :
    List (Option String × Dict) :=
  match d with
  | [] => [(k, v)]
  | (k', v') :: rest => if k' = k then (k, v) :: rest else (k', v') :: dlgSet rest k v

/-- `self.VOIP_EVENT` (`corelib/enumerations.h - voip_event_type`). -/
def voipEventTable (n : Nat) : Option String :=
  match n with
  | 0 => some "invalid" | 1 => some "min" | 2 => some "missed call"
  | 3 => some "call ended" | 4 => some "call accepted" | 5 => some "call declined"
  | 6 => some "max" | _ => none

/-- `self.VOIP_DIRECTION`. -/
def voipDirectionTable (n : Nat) : Option String :=
  match n with
  | 0 => some "OUTGOING" | 1 => some "INCOMING" | _ => none

/-- `self.CHAT_EVENT` (`corelib/enumerations.h - chat_event_type`). -/
def chatEventTable (n : Nat) : Option String :=
  match n with
  | 0 => some "invalid" | 1 => some "min" | 2 => some "added to buddy list"
  | 3 => some "add members to chat" | 4 => some "invite" | 5 => some "leave"
  | 6 => some "delete members from chat" | 7 => some "kicked"
  | 8 => some "chat name modified" | 9 => some "buddy registered"
  | 10 => some "buddy found" | 11 => some "birthday" | 12 => some "avatar modified"
  | 13 => some "generic" | 14 => some "chat description modified"
  | 15 => some "message deleted" | 16 => some "chat rules modified"
  | 17 => some "chat stamp modified" | 18 => some "chat join moderation modified"
  | 19 => some "chat public modified" | 20 => some "chat trust required modified"
  | 21 => some "chat threads enabled modified" | 22 => some "mchat admin granted"
  | 23 => some "mchat admin revoked" | 24 => some "mchat allowed to write"
  | 25 => some "mchat disallowed to write" | 26 => some "mchat waiting for approval"
  | 27 => some "mchat joining approved" | 28 => some "mchat joining rejected"
  | 29 => some "mchat joining canceled" | 30 => some "warn about stranger"
  | 31 => some "no longer stranger" | 32 => some "status reply"
  | 33 => some "custom status reply" | 34 => some "task changed"
  | 35 => some "max" | _ => none

/-! ## Primitive readers (lines 1558-1778)

Each reader receives the already-parsed `(tag, length)` header and the
bytes following the header (`body`), and yields the decoded value plus the
number of body bytes consumed (the Python functions return the new
absolute cursor; `consumed = new_offset - (offset + 8)`).  Errors carry
the state as mutated so far, mirroring Python exceptions thrown after
partial side effects. -/

/-- Result of one reader invocation. -/
abbrev RRes := DbState × Except Err (Value × Nat)

/-- `read_time` (line 1558): `STRUCT_DICT[length]` unpack of the slice
`blk[offset : offset+length]`, sentinel `0`/`0xFFFFFFFF` to `None`,
otherwise a formatted UTC string; tag 3 stores the raw epoch into
`RAW_TIME`. -/
def read_time (tag len : Nat) (body : List Nat) (st : DbState) : RRes :=
  match structFirst len (body.take len) with
  | .error e => (st, .error e)
  | .ok unixTs =>
    let ts := if unixTs = 4294967295 ∨ unixTs = 0 then Value.vNone
              else Value.vStr (formatTs unixTs)
    let st := if tag = 3 then { st with rawTime := unixTs } else st
    (st, .ok (ts, len))

/-- `read_message_id` (line 1576): `"<Q"` unpack of the slice (needs 8
bytes), with `UINT64_MAX` mapped to `None`; the cursor advances by the
declared `length`. -/
def read_message_id (len : Nat) (body : List Nat) (st : DbState) : RRes :=
  let slice := body.take len
  if slice.length < 8 then (st, .error .structError)
  else
    let msgId := leNum (slice.take 8)
    if msgId = 18446744073709551615 then (st, .ok (.vNone, len))
    else (st, .ok (.vNat msgId, len))

/-- `read_text` (line 1586): strict UTF-8 decoding of the slice (failure
raises `UnicodeDecodeError`), sanitised; tag 5 additionally stores the
sanitised text into the scratch cell `self.msg`. -/
def read_text (tag len : Nat) (body : List Nat) (st : DbState) : RRes :=
  match utf8Decode (body.take len) with
  | none => (st, .error .unicodeError)
  | some cs =>
    let text := sanitize (String.mk cs)
    let st := if tag = 5 then { st with msg := some text } else st
    (st, .ok (.vStr text, len))

/-- `read_bool` (line 1597): `"?"` unpack of the first slice byte. -/
def read_bool (len : Nat) (body : List Nat) (st : DbState) : RRes :=
  let slice := body.take len
  match slice with
  | [] => (st, .error .structError)
  | b :: _ => (st, .ok (.vBool (b ≠ 0), len))

/-- `read_value` (line 1605): zero length yields `None` without moving;
tag 69 unpacks big-endian `">H"`; otherwise `STRUCT_DICT[length]`. -/
def read_value (tag len : Nat) (body : List Nat) (st : DbState) : RRes :=
  if len = 0 then (st, .ok (.vNone, 0))
  else
    let unp := if tag = 69 then be16 (body.take len) else structFirst len (body.take len)
    match unp with
    | .error e => (st, .error e)
    | .ok v => (st, .ok (.vNat v, len))

/-- `read_lookup_value` (line 1620): `read_value` plus enum projection for
tags 23 (`CHAT_EVENT`), 27 (`VOIP_EVENT`), 31 (`VOIP_DIRECTION`) — a value
outside the table raises `KeyError` — and 69 (`bool(value)`, where Python
`bool(None)` is `False`). -/
def read_lookup_value (tag len : Nat) (body : List Nat) (st : DbState) : RRes :=
  match read_value tag len body st with
  | (st, .error e) => (st, .error e)
  | (st, .ok (v, consumed)) =>
    let lookup1 : Value → (Nat → Option String) → DbState × Except Err (Value × Nat) :=
      fun v table =>
        match v with
        | .vNat n =>
          match table n with
          | some s => (st, .ok (.vStr s, consumed))
          | none => (st, .error .keyError)
        | _ => (st, .error .keyError)
    if tag = 23 then lookup1 v chatEventTable
    else if tag = 27 then lookup1 v voipEventTable
    else if tag = 31 then lookup1 v voipDirectionTable
    else if tag = 69 then
      match v with
      | .vNat n => (st, .ok (.vBool (n ≠ 0), consumed))
      | _ => (st, .ok (.vBool false, consumed))
    else (st, .ok (v, consumed))

/-- `read_size` (line 1634): framing only, the cursor moves past the
header and the declared length is not consumed. -/
def read_size (st : DbState) : RRes :=
  (st, .ok (.vNone, 0))

/-- `read_unknown` (line 1640): a zero length is skipped; otherwise the
value is unpacked through `STRUCT_DICT` (so an unsupported length raises
`KeyError`) and discarded. -/
def read_unknown (len : Nat) (body : List Nat) (st : DbState) : RRes :=
  if len = 0 then (st, .ok (.vNone, 0))
  else
    match structFirst len (body.take len) with
    | .error e => (st, .error e)
    | .ok _ => (st, .ok (.vNone, len))

/-- `read_message_flags` (line 1700): `STRUCT_DICT[length]` unpack, then
the ten named bits with `UNUSED` (bit 0), `PATCH` (bit 4) and
`RESTORED PATCH` (bit 9) popped, leaving bits 1,2,3,5,6,7,8 in insertion
order. -/
def read_message_flags (len : Nat) (body : List Nat) (st : DbState) : RRes :=
  match structFirst len (body.take len) with
  | .error e => (st, .error e)
  | .ok v =>
    (st, .ok (.vFlags
      [("UNREAD", v.testBit 1), ("OUTGOING", v.testBit 2),
       ("INVISIBLE", v.testBit 3), ("DELETED", v.testBit 5),
       ("MODIFIED", v.testBit 6), ("UPDATED", v.testBit 7),
       ("CLEAR", v.testBit 8)], len))

/-- `"|".join` of the selected format-flag names. -/
def pipeJoin : List String → String
  | [] => ""
  | x :: xs => xs.foldl (fun a b => a ++ "|" ++ b) x

/-- `read_format_flags` (line 1725): bits 0..10 named
bold/italic/…/unordered_list, pipe-joined. -/
def read_format_flags (len : Nat) (body : List Nat) (st : DbState) : RRes :=
  match structFirst len (body.take len) with
  | .error e => (st, .error e)
  | .ok v =>
    let names := [(0, "bold"), (1, "italic"), (2, "underline"),
      (3, "strikethrough"), (4, "monospace"), (5, "link"), (6, "mention"),
      (7, "quote"), (8, "pre"), (9, "ordered_list"), (10, "unordered_list")]
    let chosen := (names.filter (fun p => v.testBit p.1)).map (·.2)
    (st, .ok (.vStr (pipeJoin chosen), len))

/-- The member-accumulation loop of `read_chat_members` (line 1686): while
the cursor is short of `offset + length`, read `(member:u32, nameLen:u32)`
and a UTF-8 name of `nameLen` bytes.  Fuel-bounded: each iteration
consumes at least 8 bytes of the declared length. -/
def chatMembersAux (body : List Nat) (target : Nat) :
    Nat → Nat → List (Nat × String) → DbState →
    DbState × Except Err (List (Nat × String) × Nat)
  | 0, pos, members => fun st => (st, .ok (members, pos))
  | fuel + 1, pos, members => fun st =>
    if pos < target then
      let rest := body.drop pos
      if (rest.take 8).length < 8 then (st, .error .structError)
      else
        let mnum := le32 (rest.take 4)
        let nameLen := le32 ((rest.drop 4).take 4)
        match utf8Decode ((body.drop (pos + 8)).take nameLen) with
        | none => (st, .error .unicodeError)
        | some cs =>
          let members := members ++ [(mnum, String.mk cs)]
          chatMembersAux body target fuel (pos + 8 + nameLen) members st
    else (st, .ok (members, pos))

/-- `read_chat_members`: the loop starting with an empty member dict at the
body start, bounded by the declared length. -/
def read_chat_members (len : Nat) (body : List Nat) (st : DbState) : RRes :=
  match chatMembersAux body len (len + 1) 0 [] st with
  | (st, .error e) => (st, .error e)
  | (st, .ok (members, pos)) => (st, .ok (.vMembers members, pos))

/-! ## Handler tables and dispatch -/

/-- The primitive reader named in a handler-table entry. -/
inductive Reader
  | rMsgId | rMsgFlags | rTime | rText | rSize | rValue | rLookup
  | rBool | rMembers | rUnknown | rFormatFlags | rHeads
  deriving DecidableEq, Repr

/-- Routing destination of a handler entry: a label, Python `None`, or a
missing third tuple element (tag 123's entry has only two elements, so
`handlers[handler_id][2]` raises `IndexError`). -/
inductive Dest
  | dMissing
  | dNone
  | dTo (label : String)
  deriving DecidableEq, Repr

/-- `dialog_state_handlers` (lines 1972-2000). -/
def dialog_state_handlers (tag : Nat) : Option (Reader × String × Option String) :=
  match tag with
  | 1 => some (.rValue, "UNREAD_COUNT", some "DIALOG_STATE")
  | 2 => some (.rMsgId, "LAST_MESSAGE_ID", some "DIALOG_STATE")
  | 3 => some (.rMsgId, "YOURS_LAST_READ", some "DIALOG_STATE")
  | 4 => some (.rMsgId, "THEIRS_LAST_READ", some "DIALOG_STATE")
  | 5 => some (.rMsgId, "THEIRS_LAST_DELIVERED", some "DIALOG_STATE")
  | 7 => some (.rSize, "LAST_MESSAGE_CONTENT_SIZE", some "DIALOG_STATE")
  | 8 => some (.rBool, "VISIBLE", some "DIALOG_STATE")
  | 9 => some (.rUnknown, "LAST_MESSAGE_FRIENDLY_UNUSED", none)
  | 10 => some (.rText, "PATCH_VERSION", none)
  | 11 => some (.rMsgId, "DEL_UP_TO", none)
  | 12 => some (.rText, "FRIENDLY_NAME", some "DIALOG_STATE")
  | 13 => some (.rBool, "OFFICIAL", some "DIALOG_STATE")
  | 14 => some (.rBool, "FAKE", some "DIALOG_STATE")
  | 15 => some (.rMsgId, "HIDDEN_MESSAGE_ID", some "DIALOG_STATE")
  | 16 => some (.rValue, "UNREAD_MENTIONS_COUNT", some "DIALOG_STATE")
  | 17 => some (.rUnknown, "PINNED_MESSAGE", none)
  | 18 => some (.rBool, "ATTENTION", none)
  | 19 => some (.rBool, "SUSPICIOUS", none)
  | 20 => some (.rSize, "HEADS_SIZE", none)
  | 21 => some (.rText, "HEAD_AIMID", some "DIALOG_STATE")
  | 22 => some (.rText, "HEAD_FRIENDLY_NAME", some "DIALOG_STATE")
  | 23 => some (.rMsgId, "LAST_READ_MENTION", some "DIALOG_STATE")
  | 24 => some (.rBool, "STRANGER", some "DIALOG_STATE")
  | 25 => some (.rText, "INFO_VERSION", none)
  | 26 => some (.rValue, "NO_RECENTS_UPDATE", none)
  | 27 => some (.rText, "MEMBERS_VERSION", none)
  | _ => none

/-- Dispatch for the readers that can occur inside `read_heads` (the
dialog-state table holds no `read_heads` entry, so the `rHeads` arm is
dead code and mapped to the raw-skip reader). -/
def runReaderBasic (rd : Reader) (tag len : Nat) (body : List Nat) (st : DbState) : RRes :=
  match rd with
  | .rMsgId => read_message_id len body st
  | .rMsgFlags => read_message_flags len body st
  | .rTime => read_time tag len body st
  | .rText => read_text tag len body st
  | .rSize => read_size st
  | .rValue => read_value tag len body st
  | .rLookup => read_lookup_value tag len body st
  | .rBool => read_bool len body st
  | .rMembers => read_chat_members len body st
  | .rUnknown => read_unknown len body st
  | .rFormatFlags => read_format_flags len body st
  | .rHeads => read_unknown len body st

/-- Inner loop of `read_heads` (lines 1662-1677): decrements `head_size`
and `blk_size` by `item_size + 8` on every pass — the cursor advances only
for known dialog-state tags — and writes routed values into
`DIALOG_STATES[CHAT_UID]` under the ordinal-suffixed key (`KeyError` when
`CHAT_UID` is not a dialog-states key, as during message-history
decoding).  Sizes are Python ints and can go negative. -/
def readHeadsInner (body : List Nat) (count : Nat) :
    Nat → Int → Int → Nat → DbState → DbState × Except Err (Int × Nat)
  | 0, _, blkSize, pos, st => (st, .ok (blkSize, pos))
  | fuel + 1, headSize, blkSize, pos, st =>
    if headSize > 0 then
      let rest := body.drop pos
      if rest.length < 8 then (st, .error .structError)
      else
        let hTag := le32 (rest.take 4)
        let iSize := le32 ((rest.drop 4).take 4)
        let headSize' := headSize - ((iSize : Int) + 8)
        let blkSize' := blkSize - ((iSize : Int) + 8)
        match dialog_state_handlers hTag with
        | none => readHeadsInner body count fuel headSize' blkSize' pos st
        | some (rd, key, dest) =>
          match runReaderBasic rd hTag iSize (body.drop (pos + 8)) st with
          | (st, .error e) => (st, .error e)
          | (st, .ok (value, consumed)) =>
            let pos' := pos + 8 + consumed
            match dest with
            | none => readHeadsInner body count fuel headSize' blkSize' pos' st
            | some _ =>
              match dlgGet st.dialogStates st.chatUid with
              | none => (st, .error .keyError)
              | some m =>
                let ds := dlgSet st.dialogStates st.chatUid
                  (dictSet m (key ++ "_" ++ Nat.repr count) value)
                let st := { st with dialogStates := ds }
                readHeadsInner body count fuel headSize' blkSize' pos' st
    else (st, .ok (blkSize, pos))

/-- Outer loop of `read_heads` (lines 1662-1682): after each head frame the
ordinal is bumped and, when `blk_size` is non-zero, the next `head_size`
is reloaded from the following 8 bytes. -/
def readHeadsOuter (body : List Nat) :
    Nat → Int → Int → Nat → Nat → DbState → DbState × Except Err Nat
  | 0, _, _, _, pos, st => (st, .ok pos)
  | fuel + 1, blkSize, headSize, count, pos, st =>
    if blkSize > 0 then
      match readHeadsInner body count (headSize.toNat + 1) headSize blkSize pos st with
      | (st, .error e) => (st, .error e)
      | (st, .ok (blkSize', pos')) =>
        if blkSize' ≠ 0 then
          let rest := body.drop pos'
          if rest.length < 8 then (st, .error .structError)
          else
            let headSize' := (le32 ((rest.drop 4).take 4) : Int)
            readHeadsOuter body fuel (blkSize' - 8) headSize' (count + 1) (pos' + 8) st
        else readHeadsOuter body fuel blkSize' headSize (count + 1) pos' st
    else (st, .ok pos)

/-- `read_heads` (line 1654): reads `(spacer, head_size)` from the payload
start, then runs the nested frame loops over the remaining `length - 8`
declared bytes. -/
def read_heads (len : Nat) (body : List Nat) (st : DbState) : RRes :=
  if body.length < 8 then (st, .error .structError)
  else
    let headSize := (le32 ((body.drop 4).take 4) : Int)
    let blkSize := (len : Int) - 8
    match readHeadsOuter body (blkSize.toNat + 2) blkSize headSize 1 8 st with
    | (st, .error e) => (st, .error e)
    | (st, .ok pos) => (st, .ok (.vNone, pos))

/-- Full reader dispatch for the message-history table. -/
def runReader (rd : Reader) (tag len : Nat) (body : List Nat) (st : DbState) : RRes :=
  match rd with
  | .rHeads => read_heads len body st
  | _ => runReaderBasic rd tag len body st

/-- The message-history handler table `handlers` (lines 1780-1911):
126 tags, 0 through 125 (tag 123's entry lacks its destination element). -/
def handlers (tag : Nat) : Option (Reader × String × Dest) :=
  match tag with
  | 0 => some (.rSize, "CALL_LOG_CACHE_BLOCK_SIZE", .dNone)
  | 1 => some (.rMsgId, "MESSAGE_ID", .dTo "MESSAGE")
  | 2 => some (.rMsgFlags, "FLAGS", .dTo "MESSAGE")
  | 3 => some (.rTime, "TIME", .dTo "MESSAGE")
  | 4 => some (.rText, "WID", .dTo "MESSAGE")
  | 5 => some (.rText, "TEXT", .dNone)
  | 6 => some (.rSize, "CHAT_BLOCK_SIZE", .dNone)
  | 7 => some (.rSize, "STICKER_BLOCK_SIZE", .dNone)
  | 8 => some (.rSize, "MULT", .dNone)
  | 9 => some (.rSize, "VOIP_BLOCK_SIZE", .dNone)
  | 10 => some (.rText, "STICKER_ID", .dTo "MESSAGE")
  | 11 => some (.rText, "CHAT_SENDER", .dTo "MESSAGE")
  | 12 => some (.rText, "CHAT_NAME", .dTo "MESSAGE")
  | 13 => some (.rMsgId, "PREVIOUS_MESSAGE_ID_WITH_", .dTo "MESSAGE")
  | 14 => some (.rText, "INTERNAL_ID", .dTo "MESSAGE")
  | 15 => some (.rText, "CHAT_FRIENDLY_NAME", .dTo "MESSAGE")
  | 16 => some (.rSize, "FILE_SHARING_BLOCK_SIZE", .dNone)
  | 17 => some (.rSize, "FILE_SHARING_FLAGS", .dNone)
  | 18 => some (.rText, "FILE_SHARING_URI", .dTo "MESSAGE")
  | 19 => some (.rText, "FILE_SHARING_LOCAL_PATH", .dTo "MESSAGE")
  | 20 => some (.rHeads, "CHAT_HEADS", .dNone)
  | 21 => some (.rText, "SENDER_FRIENDLY_NAME", .dTo "MESSAGE")
  | 22 => some (.rSize, "CHAT_EVENT_BLOCK_SIZE", .dNone)
  | 23 => some (.rLookup, "CHAT_EVENT_TYPE", .dTo "MESSAGE")
  | 24 => some (.rText, "CHAT_EVENT_SENDER_FRIENDLY_NAME", .dTo "MESSAGE")
  | 25 => some (.rMembers, "CHAT_EVENT_MCHAT_MEMBERS", .dTo "MESSAGE")
  | 26 => some (.rText, "CHAT_EVENT_NEW_CHAT_NAME", .dTo "MESSAGE")
  | 27 => some (.rLookup, "VOIP_EVENT_TYPE", .dTo "VOIP")
  | 28 => some (.rText, "VOIP_SENDER_FRIENDLY_NAME", .dTo "VOIP")
  | 29 => some (.rText, "VOIP_SENDER_AIMID", .dTo "VOIP")
  | 30 => some (.rValue, "VOIP_DURATION", .dTo "VOIP")
  | 31 => some (.rLookup, "VOIP_DIRECTION", .dTo "VOIP")
  | 32 => some (.rText, "CHAT_EVENT_GENERIC TEXT", .dTo "MESSAGE")
  | 33 => some (.rText, "CHAT_EVENT_NEW_CHAT_DESCRIPTION", .dTo "MESSAGE")
  | 34 => some (.rText, "QUOTE_TEXT", .dTo "MESSAGE")
  | 35 => some (.rText, "QUOTE_SENDER_SN", .dTo "MESSAGE")
  | 36 => some (.rMsgId, "QUOTE_MESSAGE_ID", .dTo "MESSAGE")
  | 37 => some (.rTime, "QUOTE_TIME", .dTo "MESSAGE")
  | 38 => some (.rText, "QUOTE_CHAT_ID", .dTo "MESSAGE")
  | 39 => some (.rSize, "QUOTE", .dNone)
  | 40 => some (.rText, "QUOTE_SENDER_FRIENDLY_NAME", .dTo "MESSAGE")
  | 41 => some (.rBool, "QUOTE_IS_FORWARDED", .dTo "MESSAGE")
  | 42 => some (.rText, "CHAT_EVENT_NEW_CHAT_RULES", .dTo "MESSAGE")
  | 43 => some (.rText, "CHAT_EVENT_SENDER_AIMID", .dTo "MESSAGE")
  | 44 => some (.rValue, "QUOTE_SET_ID", .dNone)
  | 45 => some (.rValue, "QUOTE_STICKER_ID", .dNone)
  | 46 => some (.rText, "QUOTE_CHAT_STAMP", .dTo "MESSAGE")
  | 47 => some (.rText, "QUOTE_CHAT_NAME", .dTo "MESSAGE")
  | 48 => some (.rSize, "MENTION_BLOCK_SIZE", .dNone)
  | 49 => some (.rText, "MENTIONER", .dTo "MESSAGE")
  | 50 => some (.rText, "MENTIONER_FRIENDLY_NAME", .dTo "MESSAGE")
  | 51 => some (.rMembers, "CHAT_EVENT_MCHAT_MEMBERS_AIMIDS", .dTo "MESSAGE")
  | 52 => some (.rText, "UPDATE_PATCH_VERSION", .dTo "MESSAGE")
  | 53 => some (.rSize, "SNIPPED_BLOCK_SIZE", .dNone)
  | 54 => some (.rText, "SNIPPET_URL", .dTo "MESSAGE")
  | 55 => some (.rText, "SNIPPET_CONTENT_TYPE", .dTo "MESSAGE")
  | 56 => some (.rText, "SNIPPET_PREVIEW_URL", .dTo "MESSAGE")
  | 57 => some (.rValue, "SNIPPET_PREVIEW_WIDTH", .dTo "MESSAGE")
  | 58 => some (.rValue, "SNIPPET_PREVIEW_HEIGHT", .dTo "MESSAGE")
  | 59 => some (.rText, "SNIPPET_PREVIEW_TITLE", .dTo "MESSAGE")
  | 60 => some (.rText, "SNIPPET_DESCRIPTION", .dTo "MESSAGE")
  | 61 => some (.rText, "VOIP_CONFERENCE_MEMBERS", .dTo "VOIP")
  | 62 => some (.rBool, "VOIP_IS_VIDEO", .dTo "VOIP")
  | 63 => some (.rSize, "IS_CAPTCHA_PRESENT", .dNone)
  | 64 => some (.rText, "DESCRIPTION", .dTo "MESSAGE")
  | 65 => some (.rText, "URL", .dTo "MESSAGE")
  | 66 => some (.rText, "QUOTE_URL", .dTo "MESSAGE")
  | 67 => some (.rText, "QUOTE_DESCRIPTION", .dTo "MESSAGE")
  | 68 => some (.rValue, "OFFLINE_VERSION", .dNone)
  | 69 => some (.rLookup, "IS_OFFICIAL", .dTo "MESSAGE")
  | 70 => some (.rSize, "SHARED_CONTACT", .dNone)
  | 71 => some (.rText, "SHARED_CONTACT_NAME", .dTo "MESSAGE")
  | 72 => some (.rText, "SHARED_CONTACT_PHONE_NUMBER", .dTo "MESSAGE")
  | 73 => some (.rText, "SHARED_CONTACT_SN", .dTo "MESSAGE")
  | 74 => some (.rText, "FILE_SHARING_BASE_CONTENT_TYPE", .dTo "MESSAGE")
  | 75 => some (.rValue, "FILE_SHARING_DURATION", .dTo "MESSAGE")
  | 76 => some (.rSize, "GEO_DATA_BLOCK_SIZE", .dNone)
  | 77 => some (.rText, "GEOGRAPHIC_NAME", .dTo "MESSAGE")
  | 78 => some (.rText, "LATITUDE", .dTo "MESSAGE")
  | 79 => some (.rText, "LONGITUDE", .dTo "MESSAGE")
  | 80 => some (.rBool, "CHAT_IS_CHANNEL", .dTo "MESSAGE")
  | 81 => some (.rSize, "POLL_BLK_SIZE", .dNone)
  | 82 => some (.rText, "POLL_ID", .dTo "MESSAGE")
  | 83 => some (.rText, "POLL_ANSWER", .dTo "MESSAGE")
  | 84 => some (.rValue, "POLL_TYPE", .dTo "MESSAGE")
  | 85 => some (.rText, "CHAT_EVENT_NEW_CHAT_STAMP", .dTo "MESSAGE")
  | 86 => some (.rValue, "JSON_BLOCK_SIZE", .dNone)
  | 87 => some (.rText, "SENDER_AIMID", .dTo "MESSAGE")
  | 88 => some (.rUnknown, "BUTTONS", .dNone)
  | 89 => some (.rBool, "HIDE_EDIT", .dNone)
  | 90 => some (.rText, "CHAT_REQUESTED_BY", .dTo "MESSAGE")
  | 91 => some (.rText, "CHAT_REQUESTER_FRIENDLY_NAME", .dTo "MESSAGE")
  | 92 => some (.rText, "VOIP_CALL_AIMID", .dTo "VOIP")
  | 93 => some (.rText, "VOIP_SID", .dTo "VOIP")
  | 94 => some (.rSize, "REACTIONS_BLOCK", .dNone)
  | 95 => some (.rBool, "REACTIONS_EXISTS", .dTo "MESSAGE")
  | 96 => some (.rText, "CHAT_EVENT_SENDER_STATUS", .dTo "MESSAGE")
  | 97 => some (.rText, "CHAT_EVENT_OWNER_STATUS", .dTo "MESSAGE")
  | 98 => some (.rText, "CHAT_EVENT_SENDER_STATUS_DESCRIPTION", .dTo "MESSAGE")
  | 99 => some (.rText, "CHAT_EVENT_OWNER_STATUS_DESCRIPTION", .dTo "MESSAGE")
  | 100 => some (.rSize, "FORMAT_BLOCK_SIZE", .dNone)
  | 101 => some (.rUnknown, "FORMAT_OFFSET", .dNone)
  | 102 => some (.rUnknown, "FORMAT_LENGTH", .dNone)
  | 103 => some (.rUnknown, "FORMAT_DATA", .dNone)
  | 104 => some (.rFormatFlags, "FORMAT_BOLD", .dNone)
  | 105 => some (.rFormatFlags, "FORMAT_ITALIC", .dNone)
  | 106 => some (.rFormatFlags, "FORMAT_UNDERLINE", .dNone)
  | 107 => some (.rFormatFlags, "FORMAT_STRIKETHROUGH", .dNone)
  | 108 => some (.rFormatFlags, "FORMAT_INLINE_CODE", .dNone)
  | 109 => some (.rFormatFlags, "FORMAT_URL", .dNone)
  | 110 => some (.rFormatFlags, "FORMAT_MENTION", .dNone)
  | 111 => some (.rFormatFlags, "FORMAT_QUOTE", .dNone)
  | 112 => some (.rFormatFlags, "FORMAT_PRE", .dNone)
  | 113 => some (.rFormatFlags, "FORMAT_ORDERED_LIST", .dNone)
  | 114 => some (.rFormatFlags, "FORMAT_UNORDERED_LIST", .dNone)
  | 115 => some (.rUnknown, "DESCRIPTION_FORMAT", .dNone)
  | 116 => some (.rSize, "TASK_BLOCK_SIZE", .dNone)
  | 117 => some (.rValue, "TASK_ID", .dTo "MESSAGE")
  | 118 => some (.rText, "TASK_TITLE", .dTo "MESSAGE")
  | 119 => some (.rText, "TASK_ASSIGNEE", .dTo "MESSAGE")
  | 120 => some (.rTime, "TASK_END_TIME", .dTo "MESSAGE")
  | 121 => some (.rValue, "THREAD_ID", .dTo "MESSAGE")
  | 122 => some (.rText, "TASK_STATUS", .dTo "MESSAGE")
  | 123 => some (.rText, "CHAT_EVENT_TASK_EDITOR", .dMissing)
  | 124 => some (.rUnknown, "FORMAT_START_INDEX", .dNone)
  | 125 => some (.rBool, "CHAT_EVENT_THREADS_ENABLED", .dTo "MESSAGE")
  | _ => none

/-! ## The message-history field loop (`get_db_content`, lines 467-602) -/

/-- Python string interpolation of the scratch cell (`f"\n{self.msg}"`
renders `None` as the string `"None"`). -/
def pyStrOfMsg : Option String → String
  | none => "None"
  | some s => s

/-- Python `==` between a stored `TEXT` value and the scratch cell
(`None == None` is true, a string equals an equal string). -/
def pyEqTextMsg (tv : Value) (m : Option String) : Bool :=
  match tv, m with
  | .vStr t, some s => t = s
  | .vNone, none => true
  | _, _ => false

/-- The tag-1 record-boundary logic (lines 494-544): set `MESSAGE_ID`,
create the record if the id is new (seeding `TEXT` from the scratch cell),
otherwise coalesce the scratch cell into the stored `TEXT` (appending with
a newline when they differ and the stored text is not `None`); mark
`DELETED` on the literal deletion marker; finally clear the scratch
cell. -/
def handleTag1 (uid : String) (value : Value) (st : DbState) : DbState :=
  let mid : Option Nat := match value with | .vNat n => some n | _ => none
  let st := { st with msgId := mid }
  let st :=
    match parkGet st.park mid with
    | none =>
      let msgDict : Dict := match st.msg with
        | some t => [("TEXT", .vStr t)]
        | none => []
      { st with park := parkSet st.park mid { message := msgDict, voip := none, uid := uid } }
    | some r =>
      match dictGet r.message "TEXT" with
      | some tv =>
        if pyEqTextMsg tv st.msg then st
        else
          match tv with
          | .vStr t =>
            let m' := dictSet r.message "TEXT" (.vStr (t ++ "\n" ++ pyStrOfMsg st.msg))
            { st with park := parkSet st.park mid { r with message := m' } }
          | _ => st
      | none =>
        let tv : Value := match st.msg with
          | some t => .vStr t
          | none => .vNone
        let r' := { r with message := dictSet r.message "TEXT" tv }
        { st with park := parkSet st.park mid r' }
  let st :=
    if st.msg = some "Message was deleted" then
      match parkGet st.park mid with
      | some r =>
        let m' := dictSet r.message "DELETED" (.vBool true)
        { st with park := parkSet st.park mid { r with message := m' } }
      | none => st
    else st
  { st with msg := none }

/-- Reading the `dest` sub-dict of a record (`record[dest]`): `"MESSAGE"`
is always present, `"VOIP"` only after the ensure step, any other label
raises `KeyError`. -/
def recDest (r : MsgRec) (d : String) : Option Dict :=
  if d = "MESSAGE" then some r.message
  else if d = "VOIP" then r.voip
  else none

/-- Writing one key of the `dest` sub-dict of a record. -/
def recSetDest (r : MsgRec) (d k : String) (v : Value) : Option MsgRec :=
  if d = "MESSAGE" then some { r with message := dictSet r.message k v }
  else if d = "VOIP" then
    match r.voip with
    | some m => some { r with voip := some (dictSet m k v) }
    | none => none
  else none

/-- The routing tail of the field loop (lines 549-597): fetch `(key, dest)`
from the handler entry (tag 123 raises `IndexError`), skip null
destinations and empty-string values, ensure the `VOIP` sub-dict, apply
the tag-13 fallback, derive `DIRECTION` from tag-2 flags, shadow `TIME_RAW`
or recover a deleted message's `TIME` for tag 3, then store the value and
clear `RAW_TIME`.  Every `PARK[uid][MESSAGE_ID]` access raises `KeyError`
when the current message id has no parked record. -/
def route (uid : String) (tag : Nat) (key : String) (dest : Dest) (value : Value)
    (st : DbState) : DbState × Option Err :=
  match dest with
  | .dMissing => (st, some .indexError)
  | .dNone => (st, none)
  | .dTo d =>
    if value = .vStr "" then (st, none)
    else
      -- if dest == "VOIP" and "VOIP" not in PARK[uid][MESSAGE_ID]
      let ensure : DbState × Option Err :=
        if d = "VOIP" then
          match parkGet st.park st.msgId with
          | none => (st, some .keyError)
          | some r =>
            if r.voip = none then
              ({ st with park := parkSet st.park st.msgId { r with voip := some [] } }, none)
            else (st, none)
        else (st, none)
      match ensure with
      | (st, some e) => (st, some e)
      | (st, none) =>
        -- tag 13: suffix the key with the uid, fall back to the stored value
        let step13 : DbState × Except Err (String × Value) :=
          if tag = 13 then
            let key := key ++ uid
            if value = .vNone then
              match parkGet st.park st.msgId with
              | none => (st, .error .keyError)
              | some r =>
                match recDest r d with
                | none => (st, .error .keyError)
                | some m =>
                  match dictGet m key with
                  | some v2 => if v2 ≠ .vNone then (st, .ok (key, v2)) else (st, .ok (key, value))
                  | none => (st, .ok (key, value))
            else (st, .ok (key, value))
          else (st, .ok (key, value))
        match step13 with
        | (st, .error e) => (st, some e)
        | (st, .ok (key, value)) =>
          -- tag 2: DIRECTION from the OUTGOING bit
          let step2 : DbState × Option Err :=
            if tag = 2 then
              match parkGet st.park st.msgId with
              | none => (st, some .keyError)
              | some r =>
                match value with
                | .vFlags fs =>
                  match fs.lookup "OUTGOING" with
                  | none => (st, some .keyError)
                  | some b =>
                    let dir := if b then "OUTGOING" else "INCOMING"
                    match recSetDest r d "DIRECTION" (.vStr dir) with
                    | none => (st, some .keyError)
                    | some r' => ({ st with park := parkSet st.park st.msgId r' }, none)
                | _ => (st, some .typeError)
            else (st, none)
          match step2 with
          | (st, some e) => (st, some e)
          | (st, none) =>
            -- tag 3: RAW_TIME shadow / deleted-message TIME recovery
            let step3 : DbState × Except Err Value :=
              if tag = 3 ∧ st.rawTime ≠ 0 then
                match parkGet st.park st.msgId with
                | none => (st, .error .keyError)
                | some r =>
                  match recSetDest r d "TIME_RAW" (.vNat st.rawTime) with
                  | none => (st, .error .keyError)
                  | some r' => ({ st with park := parkSet st.park st.msgId r' }, .ok value)
              else if tag = 3 ∧ st.rawTime = 0 then
                match parkGet st.park st.msgId with
                | none => (st, .ok value)
                | some r =>
                  match dictGet r.message "TEXT" with
                  | none => (st, .error .keyError)
                  | some .vNone => (st, .error .typeError)
                  | some (.vStr t) =>
                    if containsSub "Message was deleted".data t.data then
                      match dictGet r.message "TIME" with
                      | none => (st, .error .keyError)
                      | some tv =>
                        if tv ≠ .vNone ∧ value = .vNone then (st, .ok tv)
                        else (st, .ok value)
                    else (st, .ok value)
                  | some _ => (st, .error .typeError)
              else (st, .ok value)
            match step3 with
            | (st, .error e) => (st, some e)
            | (st, .ok value) =>
              match parkGet st.park st.msgId with
              | none => (st, some .keyError)
              | some r =>
                match recSetDest r d key value with
                | none => (st, some .keyError)
                | some r' =>
                  ({ st with park := parkSet st.park st.msgId r', rawTime := 0 }, none)

/-- One pass of the field loop body for a parsed `(tag, length)` header:
unknown tags skip `8 + length` bytes (the `8` is the header consumed by
the caller); known tags run their reader, the tag-1 record logic, and the
routing tail.  Returns the number of body bytes consumed. -/
def stepField (uid : String) (tag len : Nat) (body : List Nat) (st : DbState) :
    DbState × Except Err Nat :=
  match handlers tag with
  | none => (st, .ok len)
  | some (rd, key, dest) =>
    match runReader rd tag len body st with
    | (st, .error e) => (st, .error e)
    | (st, .ok (value, consumed)) =>
      let st := if tag = 1 then handleTag1 uid value st else st
      match route uid tag key dest value st with
      | (st, some e) => (st, .error e)
      | (st, none) => (st, .ok consumed)

/-- The inner field loop (`while offset + 8 <= len(blk)`, lines 490-599):
parse the `(tag:u32-LE, length:u32-LE)` header and run `stepField`.
Fuel-bounded; every iteration consumes at least the 8 header bytes, so
`length of the block` is enough fuel. -/
def fieldLoop (uid : String) : Nat → List Nat → DbState → DbState × Option Err
  | 0, _, st => (st, none)
  | fuel + 1, blk, st =>
    if blk.length < 8 then (st, none)
    else
      let tag := le32 (blk.take 4)
      let len := le32 ((blk.drop 4).take 4)
      let body := blk.drop 8
      match stepField uid tag len body st with
      | (st, .error e) => (st, some e)
      | (st, .ok consumed) => fieldLoop uid fuel (body.drop consumed) st

/-- The outer block loop (`while len(content) >= 16`, lines 480-601):
read the `(size, size-check)` header, stop on mismatch or when fewer than
`size + 16` bytes remain, decode the block's fields with a fresh scratch
cell, then commit `MESSAGES[uid] = PARK[uid]` and continue after the
block's 8 trailing bytes. -/
def blockLoop (uid : String) : Nat → List Nat → DbState → DbState × Option Err
  | 0, _, st => (st, none)
  | fuel + 1, content, st =>
    if content.length < 16 then (st, none)
    else
      let blkSize := le32 (content.take 4)
      let blkChk := le32 ((content.drop 4).take 4)
      if blkSize ≠ blkChk then (st, none)
      else
        let blkEnd := blkSize + 8
        if blkEnd + 8 > content.length then (st, none)
        else
          let blk := (content.drop 8).take blkSize
          let st := { st with msg := none }
          match fieldLoop uid (blk.length + 1) blk st with
          | (st, some e) => (st, some e)
          | (st, none) =>
            blockLoop uid fuel (content.drop (blkEnd + 8)) { st with committed := true }

/-- `get_db_content` restricted to one user id and one file: decode the
byte content from a fresh parser state.  The second component is the
Python exception escaping to the caller, if any. -/
def decodeDbFile (uid : String) (content : List Nat) : DbState × Option Err :=
  blockLoop uid (content.length + 1) content initState

/-- The observable message map `MESSAGES[uid]` after decoding:
`MESSAGES[uid] = PARK[uid]` aliases the park dict once the first block
completes, so it reflects the current park exactly when at least one
block was committed, and stays the initial empty dict otherwise. -/
def messagesOf (r : DbState × Option Err) : Park :=
  if r.1.committed then r.1.park else []

/-! ## The MyInfo cache decoder (`get_info_cache`, lines 604-652) -/

/-- `my_info_handlers` (lines 1914-1928): twelve `(reader, key)` pairs. -/
def my_info_handlers (tag : Nat) : Option (Reader × String) :=
  match tag with
  | 1 => some (.rText, "AIMID")
  | 2 => some (.rText, "DISPLAY_ID")
  | 3 => some (.rText, "FRIENDLY_NAME")
  | 4 => some (.rText, "STATE")
  | 5 => some (.rText, "USER_TYPE")
  | 6 => some (.rText, "ATTACHED_PHONE_NUMBER")
  | 7 => some (.rValue, "GLOBAL_FLAGS")
  | 8 => some (.rBool, "AUTO_CREATED")
  | 9 => some (.rBool, "HAS_MAIL")
  | 10 => some (.rBool, "READ_USER_AGREEMENT")
  | 11 => some (.rBool, "ACCOUNT_IS_OFFICIAL")
  | 12 => some (.rText, "NICKNAME")
  | _ => none

/-- The binary branch's field loop of `get_info_cache`
(`while offset + 8 <= blk_end`, lines 639-649): known tags run their
reader and store into `INFO_CACHE[key]`; an unknown tag advances the
cursor by only 8 bytes (`offset += 8`, line 649) — the declared payload
length is NOT skipped.  `declRem` is `blk_end - offset` (the loop bound
uses the declared block size), `rest` the actual bytes at the cursor. -/
def infoFieldLoop : Nat → Nat → List Nat → Dict → DbState → DbState × Dict × Option Err
  | 0, _, _, cache, st => (st, cache, none)
  | fuel + 1, declRem, rest, cache, st =>
    if declRem < 8 then (st, cache, none)
    else if rest.length < 8 then (st, cache, some .structError)
    else
      let tag := le32 (rest.take 4)
      let len := le32 ((rest.drop 4).take 4)
      match my_info_handlers tag with
      | none => infoFieldLoop fuel (declRem - 8) (rest.drop 8) cache st
      | some (rd, key) =>
        match runReaderBasic rd tag len (rest.drop 8) st with
        | (st, .error e) => (st, cache, some e)
        | (st, .ok (value, consumed)) =>
          infoFieldLoop fuel (declRem - (8 + consumed)) ((rest.drop 8).drop consumed)
            (dictSet cache key value) st

/-- The binary branch of `get_info_cache` for one file: one
`(size, size-check)` header, then the field loop over the declared block;
a size-check mismatch returns `None` leaving the cache empty. -/
def decodeInfoCache (content : List Nat) (st : DbState) : DbState × Dict × Option Err :=
  if content.length < 8 then (st, [], some .structError)
  else
    let blkSize := le32 (content.take 4)
    let blkChk := le32 ((content.drop 4).take 4)
    if blkSize ≠ blkChk then (st, [], none)
    else
      let blkEnd := blkSize + 8
      let blk := content.take blkEnd
      infoFieldLoop (blkSize + 1) blkSize (blk.drop 8) [] st

/-! ## Concrete test inputs for the claims -/

/-- Four little-endian bytes of a 32-bit value. -/
def le32b (n : Nat) : List Nat := leBytes 4 n

/-- One TLV field: `(tag:u32-LE, length:u32-LE, payload)`. -/
def mkField (tag len : Nat) (payload : List Nat) : List Nat :=
  le32b tag ++ le32b len ++ payload

/-- One block as `get_db_content` consumes it: `(size, size, payload)`
followed by the 8 trailing bytes the block loop skips. -/
def mkBlock (payload : List Nat) : List Nat :=
  le32b payload.length ++ le32b payload.length ++ payload ++ List.replicate 8 0

/-- A block whose only field is tag 1 with an all-`0xFF` 8-byte payload
(the message-id sentinel). -/
def c3bytes : List Nat := mkBlock (mkField 1 8 (List.replicate 8 255))

/-- A block with the field sequence tag-5 `"a"`, tag-1 id 1, tag-5 `"b"`,
tag-1 id 1 (text coalescing scenario). -/
def c5bytes : List Nat := mkBlock
  (mkField 5 1 [97] ++ mkField 1 8 (leBytes 8 1) ++
   mkField 5 1 [98] ++ mkField 1 8 (leBytes 8 1))

/-- A well-formed block holding message id 1, followed by a block whose
tag-5 payload `0x80` is ill-formed UTF-8. -/
def c1bytes : List Nat :=
  mkBlock (mkField 1 8 (leBytes 8 1)) ++ mkBlock (mkField 5 1 [128])

/-- A single block whose tag-5 payload `0x80` is ill-formed UTF-8. -/
def c1single : List Nat := mkBlock (mkField 5 1 [128])

/-- A block whose first field is a routed tag-3 timestamp with no tag-1
before it, followed by a block holding message id 1. -/
def c4bytes1 : List Nat :=
  mkBlock (mkField 3 4 [1, 0, 0, 0]) ++ mkBlock (mkField 1 8 (leBytes 8 1))

/-- The same input with the pre-record tag-3 field removed. -/
def c4bytes2 : List Nat := mkBlock [] ++ mkBlock (mkField 1 8 (leBytes 8 1))

/-- A MyInfo cache block holding a single unknown-tag field (tag 99,
declared length 8) whose payload spells a tag-12 length-0 field. -/
def c2infoBytes : List Nat :=
  le32b 16 ++ le32b 16 ++ mkField 99 8 (mkField 12 0 [])

/-- The seven-bit flag map read from value `v`. -/
def flagsOf (v : Nat) : List (String × Bool) :=
  [("UNREAD", v.testBit 1), ("OUTGOING", v.testBit 2),
   ("INVISIBLE", v.testBit 3), ("DELETED", v.testBit 5),
   ("MODIFIED", v.testBit 6), ("UPDATED", v.testBit 7),
   ("CLEAR", v.testBit 8)]


/-! ## General lemmas about the embedded primitives -/

/-- Looking up the character stored at a digit position recovers the
digit: the 62 alphabet characters are pairwise distinct. -/
theorem base62_indexOf_getD (d : Nat) (hd : d < 62) :
    base62Charset.indexOf (base62Charset.getD d '0') = d := by
  interval_cases d <;> rfl

theorem base62EncodeAux_spec (fuel num : Nat) (h : num ≤ fuel) (acc : Nat) :
    ((base62EncodeAux fuel num).reverse.foldl
      (fun n ch => n * 62 + base62Charset.indexOf ch) acc)
      = acc * 62 ^ (base62EncodeAux fuel num).length + num := by
  induction fuel generalizing num acc with
  | zero =>
    have : num = 0 := Nat.le_zero.mp h
    subst this
    simp [base62EncodeAux]
  | succ fuel ih =>
    by_cases h0 : num = 0
    · subst h0; simp [base62EncodeAux]
    · have hlt : num / 62 ≤ fuel := by
        have h1 : num / 62 < num := Nat.div_lt_self (Nat.pos_of_ne_zero h0) (by norm_num)
        omega
      have hmod : num % 62 < 62 := Nat.mod_lt _ (by norm_num)
      simp only [base62EncodeAux, h0, if_false, List.reverse_cons, List.foldl_append,
        List.foldl_cons, List.foldl_nil, List.length_cons]
      rw [ih _ hlt]
      rw [base62_indexOf_getD _ hmod]
      have : num = 62 * (num / 62) + num % 62 := (Nat.div_add_mod num 62).symm
      ring_nf
      omega

/-- C9: For every integer `n` with `0 ≤ n < 62^8`,
`Base62.decode (Base62.encode n) = n`: encoding over the fixed alphabet
`0-9 a-z A-Z` followed by positional decoding is the identity. -/
theorem base62_roundtrip (n : Nat) (h : n < 62 ^ 8) :
    base62Decode (base62Encode n) = n := by
  by_cases h0 : n = 0
  · subst h0; rfl
  · unfold base62Encode base62Decode
    simp only [h0, if_false]
    have := base62EncodeAux_spec n n (Nat.le_refl n) 0
    simpa using this

/-- Witness for C9: the round trip evaluated at the concrete input `12345`. -/
theorem base62_roundtrip_witness : base62Decode (base62Encode 12345) = 12345 :=
  base62_roundtrip 12345 (by norm_num)

theorem matchLength_eq_lcp (a b : List Char) :
    matchLength a b = longestCommonPrefixLen a b := by
  induction a generalizing b with
  | nil => cases b <;> rfl
  | cons x xs ih =>
    cases b with
    | nil => rfl
    | cons y ys =>
      by_cases hxy : x = y
      · simp only [matchLength, longestCommonPrefixLen, List.zip, hxy, if_true,
          List.zipWith_cons_cons, List.takeWhile_cons, decide_eq_true_eq,
          if_pos rfl, List.length_cons, ih ys]
      · simp [matchLength, longestCommonPrefixLen, List.zip, hxy, List.takeWhile]

/-- C8: `check_partial_match(value, filename)` with the default threshold
`0.5` returns true iff the longest common prefix of `value` and `filename`
has length at least `⌊0.5 · len(filename)⌋`; in particular `"abcdef"`
against `"abcxyz"` is true (prefix 3 ≥ 3) and against `"abxxxx"` is false
(prefix 2 < 3). -/
theorem check_partial_match_spec :
    (∀ value filename : String,
      check_partial_match value filename = true ↔
        longestCommonPrefixLen value.data filename.data ≥ filename.length / 2) ∧
    check_partial_match "abcdef" "abcxyz" = true ∧
    check_partial_match "abcdef" "abxxxx" = false := by
  refine ⟨fun value filename => ?_, by decide, by decide⟩
  unfold check_partial_match
  rw [matchLength_eq_lcp]
  simp

/-- C7: the type-class character `'D'` is mapped to `"unknown"` by
`extract_content_type`, although the function's own `VIDEO` table maps
`"D"` to `"STICKER"`: the dispatch string `"89ABCEF"` omits `'D'`, so the
claimed `"video-sticker"` is never produced. -/
theorem extract_content_type_D : extract_content_type 'D' = "unknown" := by
  decide

/-- If a pattern made only of the characters `'t'` and `'p'` is a prefix of
a `pyReplace` output whose replacement string starts with neither, then it
was already a prefix of the input at that position. -/
theorem pyReplace_tp_carry (p r : List Char) (d : Char) (ds : List Char)
    (hr : r = d :: ds) (hd : d ≠ 't' ∧ d ≠ 'p') :
    ∀ fuel cs q, (∀ c ∈ q, c = 't' ∨ c = 'p') →
      q <+: pyReplace p r fuel cs → q <+: cs := by
  intro fuel
  induction fuel with
  | zero => intro cs q _ h; simpa [pyReplace] using h
  | succ fuel ih =>
    intro cs q hq h
    cases cs with
    | nil =>
      simp only [pyReplace] at h
      exact h
    | cons c cs' =>
      simp only [pyReplace] at h
      by_cases hp : p.isPrefixOf (c :: cs') = true
      · rw [if_pos hp, hr] at h
        cases q with
        | nil => exact List.nil_prefix
        | cons qc q' =>
          rw [List.cons_append] at h
          rcases (List.cons_prefix_cons.mp h) with ⟨hqd, _⟩
          rcases hq qc (by simp) with h' | h' <;> subst h' <;>
            [exact absurd hqd.symm hd.1; exact absurd hqd.symm hd.2]
      · rw [if_neg hp] at h
        cases q with
        | nil => exact List.nil_prefix
        | cons qc q' =>
          rcases List.cons_prefix_cons.mp h with ⟨hqc, hq'⟩
          have := ih cs' q' (fun c hc => hq c (by simp [hc])) hq'
          exact List.cons_prefix_cons.mpr ⟨hqc, this⟩

/-- The output of `replace("http", "hxxp")` never contains `"http"`:
no suffix of `"hxxp"` is a prefix of `"http"`, and the scan replaces
every occurrence. -/
theorem pyReplace_http_no_http :
    ∀ fuel s, s.length ≤ fuel →
      ¬ (['h','t','t','p'] <:+: pyReplace ['h','t','t','p'] ['h','x','x','p'] fuel s) := by
  intro fuel
  induction fuel with
  | zero =>
    intro s hs
    have : s = [] := List.eq_nil_of_length_eq_zero (Nat.le_zero.mp hs)
    subst this
    intro h
    simpa [pyReplace] using h.length_le
  | succ fuel ih =>
    intro s hs h
    cases s with
    | nil =>
      simp only [pyReplace] at h
      simpa using h.length_le
    | cons c cs =>
      simp only [pyReplace] at h
      by_cases hp : (['h','t','t','p'] : List Char).isPrefixOf (c :: cs) = true
      · rw [if_pos hp] at h
        have hpre : (['h','t','t','p'] : List Char) <+: (c :: cs) :=
          List.isPrefixOf_iff_prefix.mp hp
        have hlen : ((c :: cs).drop 4).length ≤ fuel := by
          simp only [List.length_drop]
          have := hs
          simp only [List.length_cons] at this ⊢
          omega
        have ih' := ih _ hlen
        -- peel the four replacement characters
        rw [List.cons_append, List.cons_append, List.cons_append, List.cons_append,
          List.nil_append] at h
        rcases List.infix_cons_iff.mp h with hpre1 | h
        · rcases List.cons_prefix_cons.mp hpre1 with ⟨_, hpre1⟩
          rcases List.cons_prefix_cons.mp hpre1 with ⟨habs, _⟩
          exact absurd habs (by decide)
        rcases List.infix_cons_iff.mp h with hpre1 | h
        · rcases List.cons_prefix_cons.mp hpre1 with ⟨habs, _⟩
          exact absurd habs (by decide)
        rcases List.infix_cons_iff.mp h with hpre1 | h
        · rcases List.cons_prefix_cons.mp hpre1 with ⟨habs, _⟩
          exact absurd habs (by decide)
        rcases List.infix_cons_iff.mp h with hpre1 | h
        · rcases List.cons_prefix_cons.mp hpre1 with ⟨habs, _⟩
          exact absurd habs (by decide)
        exact ih' h
      · rw [if_neg hp] at h
        have hlen : cs.length ≤ fuel := by
          simp only [List.length_cons] at hs; omega
        rcases List.infix_cons_iff.mp h with hpre1 | h
        · rcases List.cons_prefix_cons.mp hpre1 with ⟨hc, httpfx⟩
          have : (['t','t','p'] : List Char) <+: cs :=
            pyReplace_tp_carry _ _ 'h' ['x','x','p'] rfl (by decide) fuel cs _
              (by decide) httpfx
          have h4 : (['h','t','t','p'] : List Char) <+: (c :: cs) :=
            List.cons_prefix_cons.mpr ⟨hc, this⟩
          exact hp (List.isPrefixOf_iff_prefix.mpr h4)
        · exact ih _ hlen h

/-- `replace("ftp://", "fxx://")` never creates an occurrence of
`"http"`: the replacement string contains none and no straddling
occurrence is possible. -/
theorem pyReplace_ftp_no_http :
    ∀ fuel s, s.length ≤ fuel →
      ¬ (['h','t','t','p'] <:+: s) →
      ¬ (['h','t','t','p'] <:+:
          pyReplace ['f','t','p',':','/','/'] ['f','x','x',':','/','/'] fuel s) := by
  intro fuel
  induction fuel with
  | zero =>
    intro s hs hns
    have : s = [] := List.eq_nil_of_length_eq_zero (Nat.le_zero.mp hs)
    subst this
    simp only [pyReplace]
    exact hns
  | succ fuel ih =>
    intro s hs hns h
    cases s with
    | nil =>
      simp only [pyReplace] at h
      simpa using h.length_le
    | cons c cs =>
      simp only [pyReplace] at h
      by_cases hp : (['f','t','p',':','/','/'] : List Char).isPrefixOf (c :: cs) = true
      · rw [if_pos hp] at h
        have hpre : (['f','t','p',':','/','/'] : List Char) <+: (c :: cs) :=
          List.isPrefixOf_iff_prefix.mp hp
        have hlen : ((c :: cs).drop 6).length ≤ fuel := by
          simp only [List.length_drop, List.length_cons] at *
          omega
        have hns2 : ¬ (['h','t','t','p'] <:+: (c :: cs).drop 6) := fun hin =>
          hns (hin.trans (List.drop_suffix 6 (c :: cs)).isInfix)
        have ih' := ih _ hlen hns2
        rw [List.cons_append, List.cons_append, List.cons_append, List.cons_append,
          List.cons_append, List.cons_append, List.nil_append] at h
        rcases List.infix_cons_iff.mp h with hpre1 | h
        · rcases List.cons_prefix_cons.mp hpre1 with ⟨habs, _⟩
          exact absurd habs (by decide)
        rcases List.infix_cons_iff.mp h with hpre1 | h
        · rcases List.cons_prefix_cons.mp hpre1 with ⟨habs, _⟩
          exact absurd habs (by decide)
        rcases List.infix_cons_iff.mp h with hpre1 | h
        · rcases List.cons_prefix_cons.mp hpre1 with ⟨habs, _⟩
          exact absurd habs (by decide)
        rcases List.infix_cons_iff.mp h with hpre1 | h
        · rcases List.cons_prefix_cons.mp hpre1 with ⟨habs, _⟩
          exact absurd habs (by decide)
        rcases List.infix_cons_iff.mp h with hpre1 | h
        · rcases List.cons_prefix_cons.mp hpre1 with ⟨habs, _⟩
          exact absurd habs (by decide)
        rcases List.infix_cons_iff.mp h with hpre1 | h
        · rcases List.cons_prefix_cons.mp hpre1 with ⟨habs, _⟩
          exact absurd habs (by decide)
        exact ih' h
      · rw [if_neg hp] at h
        have hlen : cs.length ≤ fuel := by
          simp only [List.length_cons] at hs; omega
        have hnscs : ¬ (['h','t','t','p'] <:+: cs) := fun hin =>
          hns (List.infix_cons hin)
        rcases List.infix_cons_iff.mp h with hpre1 | h
        · rcases List.cons_prefix_cons.mp hpre1 with ⟨hc, httpfx⟩
          have : (['t','t','p'] : List Char) <+: cs :=
            pyReplace_tp_carry _ _ 'f' ['x','x',':','/','/'] rfl (by decide) fuel cs _
              (by decide) httpfx
          have hfull : (['h','t','t','p'] : List Char) <+: (c :: cs) :=
            List.cons_prefix_cons.mpr ⟨hc, this⟩
          exact hns hfull.isInfix
        · exact ih _ hlen hnscs h

/-- The sanitised form of any string contains no occurrence of the
character sequence `"http"`. -/
theorem sanitize_no_http (s : String) :
    ¬ (['h','t','t','p'] <:+: (sanitize s).data) := by
  unfold sanitize
  by_cases h0 : s = ""
  · rw [if_pos h0, h0]
    intro h
    simpa using h.length_le
  · rw [if_neg h0]
    unfold pyReplaceStr
    apply pyReplace_ftp_no_http _ _ (Nat.le_refl _)
    exact pyReplace_http_no_http _ _ (Nat.le_refl _)

theorem leNum_leBytes (w v : Nat) (h : v < 256 ^ w) :
    leNum (leBytes w v) = v := by
  induction w generalizing v with
  | zero =>
    simp only [pow_zero, Nat.lt_one_iff] at h
    subst h; rfl
  | succ w ih =>
    have hdiv : v / 256 < 256 ^ w := by
      rw [Nat.div_lt_iff_lt_mul (by norm_num)]
      calc v < 256 ^ (w + 1) := h
        _ = 256 ^ w * 256 := by ring
    simp only [leBytes, leNum, List.foldr_cons]
    have : leNum (leBytes w (v / 256)) = v / 256 := ih _ hdiv
    unfold leNum at this
    rw [this]
    omega

theorem leBytes_length (w v : Nat) : (leBytes w v).length = w := by
  induction w generalizing v with
  | zero => rfl
  | succ w ih => simp [leBytes, ih]

/-- Sanity check of the timestamp formatter at epoch second 1. -/
theorem formatTs_one : formatTs 1 = "1970-01-01 00:00:01" := by decide

/-! ## Dictionary and park-map lemmas -/

theorem dictGet_dictSet_same (d : Dict) (k : String) (v : Value) :
    dictGet (dictSet d k v) k = some v := by
  induction d with
  | nil => simp [dictGet, dictSet]
  | cons hd tl ih =>
    obtain ⟨k', v'⟩ := hd
    by_cases h : k' = k
    · simp [dictGet, dictSet, h]
    · simp [dictGet, dictSet, h, ih]

theorem dictGet_dictSet_ne (d : Dict) (k k' : String) (v : Value) (h : k ≠ k') :
    dictGet (dictSet d k v) k' = dictGet d k' := by
  induction d with
  | nil => simp [dictGet, dictSet, h]
  | cons hd tl ih =>
    obtain ⟨k'', v''⟩ := hd
    by_cases h2 : k'' = k
    · subst h2
      simp [dictGet, dictSet, h]
    · simp [dictGet, dictSet, h2, ih]

theorem parkGet_parkSet_same (p : Park) (k : Option Nat) (r : MsgRec) :
    parkGet (parkSet p k r) k = some r := by
  induction p with
  | nil => simp [parkGet, parkSet]
  | cons hd tl ih =>
    obtain ⟨k', r'⟩ := hd
    by_cases h : k' = k
    · simp [parkGet, parkSet, h]
    · simp [parkGet, parkSet, h, ih]

theorem parkSet_parkSet (p : Park) (k : Option Nat) (a b : MsgRec) :
    parkSet (parkSet p k a) k b = parkSet p k b := by
  induction p with
  | nil => simp [parkSet]
  | cons hd tl ih =>
    obtain ⟨k', r'⟩ := hd
    by_cases h : k' = k
    · simp [parkSet, h]
    · simp [parkSet, h, ih]

theorem le32_prepend (n : Nat) (rest : List Nat) (h : n < 4294967296) :
    le32 (le32b n ++ rest) = n := by
  unfold le32 le32b
  rw [List.take_left' (leBytes_length 4 n)]
  exact leNum_leBytes 4 n h

theorem drop8_prepend (a b : List Nat) (rest : List Nat)
    (ha : a.length = 4) (hb : b.length = 4) :
    (a ++ b ++ rest).drop 8 = rest := by
  exact List.drop_left' (show (a ++ b).length = 8 by rw [List.length_append, ha, hb])

theorem drop4_prepend (a : List Nat) (rest : List Nat) (ha : a.length = 4) :
    (a ++ rest).drop 4 = rest :=
  List.drop_left' ha

/-! ## Claim theorems -/

/-- C1 counterexample: decoding does not return normally on every input —
a block whose tag-5 payload is the ill-formed UTF-8 byte `0x80` makes
`read_text` raise `UnicodeDecodeError`, which escapes `get_db_content`
uncaught. -/
theorem db_decode_raises : (decodeDbFile "u" c1single).2 ≠ none := by
  decide

/-- C1 amended: a primitive-reader failure (here ill-formed UTF-8 in a
tag-5 field) raises an exception that propagates to the caller and aborts
decoding of the whole file; blocks committed before the failing one are
kept in the parser's `MESSAGES[uid]` map. -/
theorem db_decode_error_keeps_prior_blocks :
    (decodeDbFile "u" c1bytes).2 = some Err.unicodeError ∧
    parkGet (messagesOf (decodeDbFile "u" c1bytes)) (some 1) =
      some { message := [("MESSAGE_ID", Value.vNat 1)], voip := none, uid := "u" } := by
  constructor <;> decide

/-- C3 counterexample: decoding a tag-1 field whose payload is all `0xFF`
does add an entry to the park map — the record is keyed by the null
message id, and reaches the output message map. -/
theorem sentinel_keys_record :
    parkGet (messagesOf (decodeDbFile "u" c3bytes)) none ≠ none := by
  decide

/-- C3 amended: the all-`0xFF` tag-1 payload decodes to a null message id
(`read_message_id` maps `2^64 - 1` to `None`), and the decoder then opens
a record keyed by the null id in the park map (reusing it on repetition),
so the null id does key a record in the output map. -/
theorem sentinel_null_record :
    read_message_id 8 (List.replicate 8 255) initState =
      (initState, .ok (Value.vNone, 8)) ∧
    decodeDbFile "u" c3bytes =
      (⟨[(none, ⟨[("MESSAGE_ID", Value.vNone)], none, "u"⟩)],
        none, none, 0, true, [], none⟩, none) :=
  ⟨rfl, by decide⟩

/-- C4 counterexample: a routed tag-3 field before any tag-1 does not
leave the decoded message map as if it were absent — it raises `KeyError`
(`PARK[uid][0]` does not exist), aborting the file, so a record in a later
block is lost. -/
theorem pre_record_field_changes_output :
    messagesOf (decodeDbFile "u" c4bytes1) ≠ messagesOf (decodeDbFile "u" c4bytes2) ∧
    (decodeDbFile "u" c4bytes1).2 = some Err.keyError ∧
    (decodeDbFile "u" c4bytes2).2 = none := by
  refine ⟨by decide, by decide, by decide⟩

/-- C4 amended: a field routed to a non-null destination whose decoded
value is not the empty string (here tag 3, destination `MESSAGE`),
processed while the current message id has no parked record — as before
any tag-1 has been seen — raises `KeyError` and aborts decoding; a
null-destination field such as tag-5 `TEXT`, or a routed field whose
decoded value is the empty string (the `not VERBOSE and value == ""`
skip, here a length-0 tag-4 `WID`), is discarded without attaching to
any record and without an exception. -/
theorem pre_record_routed_field_keyerror :
    (∀ (uid : String) (st : DbState), parkGet st.park st.msgId = none →
      stepField uid 3 4 [1, 0, 0, 0] st =
        ({ st with rawTime := 1 }, .error .keyError)) ∧
    (∀ (uid : String) (body : List Nat) (st : DbState),
      stepField uid 4 0 body st = (st, .ok 0)) := by
  constructor
  · intro uid st h
    have h1 : stepField uid 3 4 [1, 0, 0, 0] st =
        (match route uid 3 "TIME" (.dTo "MESSAGE") (.vStr (formatTs 1)) { st with rawTime := 1 } with
         | (st', some e) => (st', .error e)
         | (st', none) => (st', .ok 4)) := rfl
    rw [h1]
    have h2 : route uid 3 "TIME" (.dTo "MESSAGE") (.vStr (formatTs 1)) { st with rawTime := 1 } =
        ({ st with rawTime := 1 }, some .keyError) := by
      simp [route, formatTs_one, h]
    rw [h2]
  · intro uid body st
    rfl

/-- Witness for the C4 amended theorem: at the fresh parser state no
record is parked under the initial message id 0, so the tag-3 field
raises `KeyError` while a length-0 tag-4 field is silently discarded. -/
theorem pre_record_routed_field_keyerror_witness :
    stepField "u" 3 4 [1, 0, 0, 0] initState =
      ({ initState with rawTime := 1 }, .error .keyError) ∧
    stepField "u" 4 0 [] initState = (initState, .ok 0) :=
  ⟨pre_record_routed_field_keyerror.1 "u" initState rfl,
   pre_record_routed_field_keyerror.2 "u" [] initState⟩

/-- `STRUCT_DICT` unpack of a well-formed little-endian payload of width
1, 2 or 4 recovers the encoded value. -/
theorem structFirst_leBytes (w v : Nat) (hw : w = 1 ∨ w = 2 ∨ w = 4)
    (hv : v < 2 ^ (8 * w)) :
    structFirst w ((leBytes w v).take w) = .ok v := by
  have hlen : (leBytes w v).length = w := leBytes_length w v
  have htake : (leBytes w v).take w = leBytes w v :=
    List.take_of_length_le (le_of_eq hlen)
  rw [htake]
  have hv' : v < 256 ^ w := by
    calc v < 2 ^ (8 * w) := hv
      _ = 256 ^ w := by rw [pow_mul]; norm_num
  rcases hw with h | h | h <;> subst h <;>
    simp [structFirst, hlen, htake, leNum_leBytes _ _ hv']

/-- C6: for a flags payload of width 1, 2 or 4 bytes encoding `v`, a tag-2
field stores into the enclosing record exactly the seven named bits 1
(`UNREAD`), 2 (`OUTGOING`), 3 (`INVISIBLE`), 5 (`DELETED`), 6 (`MODIFIED`),
7 (`UPDATED`), 8 (`CLEAR`) — bits 0, 4 and 9 are discarded — and sets
`MESSAGE.DIRECTION` to `"OUTGOING"` iff bit 2 of `v` is set, else
`"INCOMING"`. -/
theorem flags_bits_and_direction (uid : String) (w v : Nat) (st : DbState) (r : MsgRec)
    (hw : w = 1 ∨ w = 2 ∨ w = 4) (hv : v < 2 ^ (8 * w))
    (hr : parkGet st.park st.msgId = some r) :
    stepField uid 2 w (leBytes w v) st =
      (⟨parkSet st.park st.msgId
          ⟨dictSet (dictSet r.message "DIRECTION"
              (.vStr (if v.testBit 2 then "OUTGOING" else "INCOMING")))
            "FLAGS" (.vFlags (flagsOf v)),
           r.voip, r.uid⟩,
        st.msgId, st.msg, 0, st.committed, st.dialogStates, st.chatUid⟩, .ok w) := by
  have h1 : stepField uid 2 w (leBytes w v) st =
      (match read_message_flags w (leBytes w v) st with
       | (st', .error e) => (st', .error e)
       | (st', .ok (value, consumed)) =>
         (match route uid 2 "FLAGS" (.dTo "MESSAGE") value st' with
          | (st'', some e) => (st'', .error e)
          | (st'', none) => (st'', .ok consumed))) := rfl
  have hflags : read_message_flags w (leBytes w v) st =
      (st, .ok (.vFlags (flagsOf v), w)) := by
    unfold read_message_flags
    rw [structFirst_leBytes w v hw hv]
    rfl
  rw [h1, hflags]
  dsimp only
  have hroute : route uid 2 "FLAGS" (.dTo "MESSAGE") (.vFlags (flagsOf v)) st =
      (⟨parkSet st.park st.msgId
          ⟨dictSet (dictSet r.message "DIRECTION"
              (.vStr (if v.testBit 2 then "OUTGOING" else "INCOMING")))
            "FLAGS" (.vFlags (flagsOf v)),
           r.voip, r.uid⟩,
        st.msgId, st.msg, 0, st.committed, st.dialogStates, st.chatUid⟩, none) := by
    simp [route, hr, recSetDest, flagsOf, List.lookup, parkGet_parkSet_same,
      parkSet_parkSet]
  rw [hroute]

/-- Witness for C6 at width 4 and value 4 (bit 2 set) in a state holding
one parked record. -/
theorem flags_bits_and_direction_witness :
    stepField "w" 2 4 (leBytes 4 4)
      ⟨[(some 0, ⟨[], none, "w"⟩)], some 0, none, 0, false, [], none⟩ =
      (⟨[(some 0,
          ⟨[("DIRECTION", Value.vStr "OUTGOING"), ("FLAGS", Value.vFlags (flagsOf 4))],
           none, "w"⟩)],
        some 0, none, 0, false, [], none⟩, .ok 4) := by
  have h := flags_bits_and_direction "w" 4 4
    ⟨[(some 0, ⟨[], none, "w"⟩)], some 0, none, 0, false, [], none⟩
    ⟨[], none, "w"⟩
    (by norm_num) (by norm_num) (by decide)
  simpa using h

/-- C5: during one message-history pass, a tag-1 field that reopens a
message id whose stored `MESSAGE.TEXT` differs from the current non-null
tag-5 scratch text appends the scratch value to the stored text separated
by a newline; in particular the field sequence tag-5 `"a"`, tag-1 for id 1,
tag-5 `"b"`, tag-1 for id 1 produces `MESSAGE.TEXT == "a\nb"`. -/
theorem text_coalescing (uid : String) (m : Nat) (s t : String) (st : DbState) (r : MsgRec)
    (hm : m < 2 ^ 64) (hsent : m ≠ 18446744073709551615)
    (hr : parkGet st.park (some m) = some r)
    (htext : dictGet r.message "TEXT" = some (.vStr t))
    (hmsg : st.msg = some s) (hne : t ≠ s) :
    (stepField uid 1 8 (leBytes 8 m) st).2 = .ok 8 ∧
    ((parkGet (stepField uid 1 8 (leBytes 8 m) st).1.park (some m)).map
      (fun r' => dictGet r'.message "TEXT")) = some (some (.vStr (t ++ "\n" ++ s))) ∧
    (parkGet (messagesOf (decodeDbFile "u" c5bytes)) (some 1)).map
      (fun r' => dictGet r'.message "TEXT") = some (some (.vStr "a\nb")) := by
  have hconc : (parkGet (messagesOf (decodeDbFile "u" c5bytes)) (some 1)).map
      (fun r' => dictGet r'.message "TEXT") = some (some (Value.vStr "a\nb")) := by decide
  have hm' : m < 256 ^ 8 := by
    have : (256 : Nat) ^ 8 = 2 ^ 64 := by norm_num
    rw [this]; exact hm
  have hlen : (leBytes 8 m).length = 8 := leBytes_length 8 m
  have htake : (leBytes 8 m).take 8 = leBytes 8 m :=
    List.take_of_length_le (le_of_eq hlen)
  have hmid : read_message_id 8 (leBytes 8 m) st = (st, .ok (.vNat m, 8)) := by
    simp only [read_message_id, htake, hlen, leNum_leBytes 8 m hm']
    rw [if_neg (show ¬ ((8:Nat) < 8) by omega), if_neg hsent]
  have h1 : stepField uid 1 8 (leBytes 8 m) st =
      (match route uid 1 "MESSAGE_ID" (.dTo "MESSAGE") (.vNat m) (handleTag1 uid (.vNat m) st) with
       | (st'', some e) => (st'', .error e)
       | (st'', none) => (st'', .ok 8)) := by
    simp only [stepField]
    rw [(show handlers 1 = some (Reader.rMsgId, "MESSAGE_ID", Dest.dTo "MESSAGE") from rfl)]
    dsimp only
    rw [(show runReader Reader.rMsgId 1 8 (leBytes 8 m) st = (st, Except.ok (Value.vNat m, 8)) from hmid)]
    rfl
  rw [h1]
  by_cases hdel : s = "Message was deleted"
  · subst hdel
    have htag1 : handleTag1 uid (.vNat m) st =
        ⟨parkSet st.park (some m)
          ⟨dictSet (dictSet r.message "TEXT" (.vStr (t ++ "\n" ++ "Message was deleted"))) "DELETED" (.vBool true),
           r.voip, r.uid⟩,
         some m, none, st.rawTime, st.committed, st.dialogStates, st.chatUid⟩ := by
      unfold handleTag1
      simp [hr, htext, hmsg, pyEqTextMsg, hne, pyStrOfMsg,
        parkGet_parkSet_same, parkSet_parkSet]
    rw [htag1]
    have hroute : route uid 1 "MESSAGE_ID" (.dTo "MESSAGE") (.vNat m)
        (⟨parkSet st.park (some m)
          ⟨dictSet (dictSet r.message "TEXT" (.vStr (t ++ "\n" ++ "Message was deleted"))) "DELETED" (.vBool true),
           r.voip, r.uid⟩,
         some m, none, st.rawTime, st.committed, st.dialogStates, st.chatUid⟩ : DbState) =
        (⟨parkSet st.park (some m)
          ⟨dictSet (dictSet (dictSet r.message "TEXT" (.vStr (t ++ "\n" ++ "Message was deleted"))) "DELETED" (.vBool true)) "MESSAGE_ID" (.vNat m),
           r.voip, r.uid⟩,
         some m, none, 0, st.committed, st.dialogStates, st.chatUid⟩, none) := by
      simp [route, parkGet_parkSet_same, parkSet_parkSet, recSetDest]
    rw [hroute]
    refine ⟨rfl, ?_, hconc⟩
    simp [parkGet_parkSet_same]
    rw [dictGet_dictSet_ne _ _ _ _ (by decide), dictGet_dictSet_ne _ _ _ _ (by decide),
      dictGet_dictSet_same]
  · have htag1 : handleTag1 uid (.vNat m) st =
        ⟨parkSet st.park (some m)
          ⟨dictSet r.message "TEXT" (.vStr (t ++ "\n" ++ s)),
           r.voip, r.uid⟩,
         some m, none, st.rawTime, st.committed, st.dialogStates, st.chatUid⟩ := by
      unfold handleTag1
      simp [hr, htext, hmsg, pyEqTextMsg, hne, pyStrOfMsg, hdel,
        parkGet_parkSet_same, parkSet_parkSet]
    rw [htag1]
    have hroute : route uid 1 "MESSAGE_ID" (.dTo "MESSAGE") (.vNat m)
        (⟨parkSet st.park (some m)
          ⟨dictSet r.message "TEXT" (.vStr (t ++ "\n" ++ s)),
           r.voip, r.uid⟩,
         some m, none, st.rawTime, st.committed, st.dialogStates, st.chatUid⟩ : DbState) =
        (⟨parkSet st.park (some m)
          ⟨dictSet (dictSet r.message "TEXT" (.vStr (t ++ "\n" ++ s))) "MESSAGE_ID" (.vNat m),
           r.voip, r.uid⟩,
         some m, none, 0, st.committed, st.dialogStates, st.chatUid⟩, none) := by
      simp [route, parkGet_parkSet_same, parkSet_parkSet, recSetDest]
    rw [hroute]
    refine ⟨rfl, ?_, hconc⟩
    simp [parkGet_parkSet_same]
    rw [dictGet_dictSet_ne _ _ _ _ (by decide), dictGet_dictSet_same]


/-- Witness for C5: one reopened record with stored text `"a"` and scratch
text `"b"`. -/
theorem text_coalescing_witness :
    ((parkGet (stepField "x" 1 8 (leBytes 8 1)
        ⟨[(some 1, ⟨[("TEXT", Value.vStr "a")], none, "x"⟩)],
         some 1, some "b", 0, false, [], none⟩).1.park (some 1)).map
      (fun r' => dictGet r'.message "TEXT")) =
      some (some (Value.vStr ("a" ++ "\n" ++ "b"))) :=
  (text_coalescing "x" 1 "b" "a"
    ⟨[(some 1, ⟨[("TEXT", Value.vStr "a")], none, "x"⟩)],
     some 1, some "b", 0, false, [], none⟩
    ⟨[("TEXT", Value.vStr "a")], none, "x"⟩
    (by norm_num) (by norm_num) rfl rfl rfl (by decide)).2.1


/-- C2: in the message-history field loop a tag with no handler advances
the cursor by exactly `8 + length` bytes and changes nothing else, so an
inserted synthetic unknown-tag field is invisible to the remaining decode;
but in the MyInfo cache loop (`get_info_cache`) an unknown tag advances by
only 8 bytes, so the unknown field's payload is reparsed as a field: the
concrete input `c2infoBytes` (one unknown tag-99 field whose 8-byte
payload spells a tag-12 field) makes the decoder invent a `NICKNAME`
entry instead of skipping the field. -/
theorem unknown_tag_skip :
    (∀ (uid : String) (fuel tag len : Nat) (payload B : List Nat) (st : DbState),
      handlers tag = none → tag < 4294967296 → len < 4294967296 →
      payload.length = len →
      fieldLoop uid (fuel + 1) (mkField tag len payload ++ B) st =
        fieldLoop uid fuel B st) ∧
    (decodeInfoCache c2infoBytes initState).2 = ([("NICKNAME", Value.vStr "")], none) := by
  constructor
  · intro uid fuel tag len payload B st hnone htag hlen hplen
    have hassoc : mkField tag len payload ++ B =
        le32b tag ++ (le32b len ++ (payload ++ B)) := by
      simp [mkField, List.append_assoc]
    rw [hassoc]
    have hlen4t : (le32b tag).length = 4 := leBytes_length 4 tag
    have hlen4l : (le32b len).length = 4 := leBytes_length 4 len
    have hblklen : (le32b tag ++ (le32b len ++ (payload ++ B))).length =
        8 + (len + B.length) := by
      simp [List.length_append, hlen4t, hlen4l, hplen]
      omega
    have htag4 : (le32b tag ++ (le32b len ++ (payload ++ B))).take 4 = le32b tag :=
      List.take_left' hlen4t
    have hdrop4 : (le32b tag ++ (le32b len ++ (payload ++ B))).drop 4 =
        le32b len ++ (payload ++ B) := List.drop_left' hlen4t
    have hdrop8 : (le32b tag ++ (le32b len ++ (payload ++ B))).drop 8 = payload ++ B := by
      rw [← List.append_assoc]
      exact drop8_prepend _ _ _ hlen4t hlen4l
    simp only [fieldLoop]
    rw [if_neg (by rw [hblklen]; omega)]
    rw [hdrop8, hdrop4]
    rw [show le32 ((le32b tag ++ (le32b len ++ (payload ++ B))).take 4) =
        le32 (le32b tag ++ (le32b len ++ (payload ++ B))) from by
      unfold le32
      rw [htag4, List.take_of_length_le (le_of_eq hlen4t)]]
    rw [le32_prepend tag _ htag]
    rw [show le32 ((le32b len ++ (payload ++ B)).take 4) =
        le32 (le32b len ++ (payload ++ B)) from by
      unfold le32
      rw [List.take_left' hlen4l, List.take_of_length_le (le_of_eq hlen4l)]]
    rw [le32_prepend len _ hlen]
    rw [show stepField uid tag len (payload ++ B) st = (st, .ok len) from by
      unfold stepField; rw [hnone]]
    dsimp only
    rw [List.drop_left' hplen]
  · decide

/-- Witness for the universally quantified part of C2: inserting the
synthetic field `(tag 4096, length 3, payload "xyz")` before an empty
remainder leaves the field loop's result unchanged. -/
theorem unknown_tag_skip_witness :
    fieldLoop "u" 1 (mkField 4096 3 [120, 121, 122] ++ []) initState =
      fieldLoop "u" 0 [] initState :=
  unknown_tag_skip.1 "u" 0 4096 3 [120, 121, 122] [] initState rfl
    (by norm_num) (by norm_num) rfl

/-- C10: every value the text reader returns is the sanitised decoding of
its payload, and sanitised text never contains the substring `"http"`
(each occurrence was replaced by `"hxxp"`, and the `"ftp://"` to
`"fxx://"` rewrite cannot reintroduce one). -/
theorem read_text_defanged (tag len : Nat) (body : List Nat) (st st' : DbState)
    (v : Value) (n : Nat)
    (h : read_text tag len body st = (st', .ok (v, n))) :
    ∀ s, v = .vStr s → ¬ (['h','t','t','p'] <:+: s.data) := by
  intro s hv
  unfold read_text at h
  cases hdec : utf8Decode (body.take len) with
  | none =>
    rw [hdec] at h
    exact absurd (congrArg Prod.snd h) (by simp)
  | some cs =>
    rw [hdec] at h
    simp only [Prod.mk.injEq, Except.ok.injEq] at h
    obtain ⟨-, hveq, -⟩ := h
    rw [hv] at hveq
    rw [show s = sanitize (String.mk cs) from (Value.vStr.injEq _ _).mp hveq.symm]
    exact sanitize_no_http _

/-- Witness for C10: the reader on the payload `"http"` returns the
defanged `"hxxp"`, which contains no `"http"`. -/
theorem read_text_defanged_witness :
    ¬ (['h','t','t','p'] <:+: "hxxp".data) :=
  read_text_defanged 5 4 [104, 116, 116, 112] initState
    ⟨[], some 0, some "hxxp", 0, false, [], none⟩ (.vStr "hxxp") 4 rfl "hxxp" rfl

end IcqParser
